import Mathlib

/-!
Verification development for the ESP8266-mcp diagnostic client scripts.

The Python sources embedded here:
* `test_session_management.py` — `SessionMCPClient` (length-prefixed framing,
  session lifecycle, `initialize`, `call_tool`, `disconnect`);
* `test_mcp_client.py` — `MCPClient` (newline framing receive loop);
* `integrated_test_runner.py` — `IntegratedTestRunner` (log file writing and
  the log-queue consumer / `stop_logging`).

JSON values are modelled with the inductive `Json` below; a Python `dict`
message is `Json.obj` over an association list, and `dict` membership /
indexing is `Json.getKey`.  The TCP socket's incoming side is modelled as
the data it will deliver: for the length-prefixed framing a list of byte
chunks (one chunk = what one successful `recv` call returns), and at the
message level a list of frames, where a frame is `Option Json` (`none` for
bytes that fail UTF-8/JSON decoding, which `send_request` folds into the
same failure paths as a timeout).  `datetime` values are represented by the
only projections the embedded code uses: their `isoformat()` string.
-/

namespace ESPMCP

/-- JSON values, as produced by Python's `json.loads`: objects are
association lists of string keys.  Numbers are restricted to the integers,
which covers every id and error code the scripts handle. -/
inductive Json where
  | null : Json
  | bool : Bool → Json
  | num : Int → Json
  | str : String → Json
  | arr : List Json → Json
  | obj : List (String × Json) → Json
  deriving Repr

/-- Python `d[k]` / `"k" in d` on a parsed JSON object: first binding of the
key, `none` when the key is absent or the value is not an object. -/
def Json.getKey : Json → String → Option Json
  | Json.obj kvs, k => kvs.lookup k
  | _, _ => none

/-- Python `==` between a decoded JSON value and an `int` request id
(`response["id"] != request_id`): numbers compare by value and booleans
compare as 0/1, everything else is unequal. -/
def pyEqInt (v : Json) (n : Int) : Bool :=
  match v with
  | Json.num m => m = n
  | Json.bool b => (cond b 1 0 : Int) = n
  | _ => false

/-- Session lifecycle states (`SessionState` enum in
`test_session_management.py`). -/
inductive SessionState where
  | UNINITIALIZED
  | INITIALIZING
  | INITIALIZED
  | ACTIVE
  | SHUTTING_DOWN
  | SHUTDOWN
  | ERROR_STATE
  deriving DecidableEq, Repr

/-- The mutable state of a `SessionMCPClient`: `connected` stands for
`self.socket is not None`; `serverInfo` is `self.server_info` (a JSON
value). -/
structure Client where
  connected : Bool
  requestId : Int
  inited : Bool
  serverInfo : Json
  sessionState : SessionState

/-- The JSON-RPC request object built by `SessionMCPClient.send_request`:
`{"jsonrpc": "2.0", "method": method, "id": request_id}` plus `params`
when supplied. -/
def mkRequest (method : String) (params : Option Json) (rid : Int) : Json :=
  Json.obj ([("jsonrpc", Json.str "2.0"), ("method", Json.str method),
             ("id", Json.num rid)] ++
    (match params with
     | some p => [("params", p)]
     | none => []))

/-- The response-validation tail of `SessionMCPClient.send_request`: reject
frames whose `jsonrpc` tag is missing or not `"2.0"`, reject frames that
carry an `id` different from the request's id, and return every other frame
(in particular a frame with no `id` at all is returned unchanged). -/
def validateResponse (rid : Int) (resp : Json) : Option Json :=
  match resp.getKey "jsonrpc" with
  | some (Json.str s) =>
    if s = "2.0" then
      match resp.getKey "id" with
      | some v => if pyEqInt v rid then some resp else none
      | none => some resp
    else none
  | _ => none

/-- `SessionMCPClient.send_request`: allocate the next request id, send the
framed request (which succeeds iff the socket is open and the transport
accepts the bytes, `sendOk`), then call `_receive_framed_message` exactly
once and validate the single frame it yields.  `frames` is the incoming
frame stream (`none` = an undecodable frame, folded into the `None` result
exactly as `json.JSONDecodeError` is); an empty stream is a receive
timeout.  Returns the `Option Json` result, the updated client and the
frames left unconsumed on the wire. -/
def sendRequest (c : Client) (method : String) (params : Option Json)
    (frames : List (Option Json)) (sendOk : Bool) :
    Option Json × Client × List (Option Json) :=
  let rid := c.requestId + 1
  let c' : Client := { c with requestId := rid }
  let _request := mkRequest method params rid
  if c'.connected && sendOk then
    match frames with
    | [] => (none, c', [])
    | f :: rest =>
      match f with
      | none => (none, c', rest)
      | some resp => (validateResponse rid resp, c', rest)
  else (none, c', frames)

/-- The transport environment one `SessionMCPClient.initialize` call runs
against: `sendOk` is whether `sendall` of the `initialize` request
succeeds, `frames` is the incoming frame stream, and `noticeOk` is whether
`sendall` of the `notifications/initialized` message succeeds. -/
structure Net where
  sendOk : Bool
  frames : List (Option Json)
  noticeOk : Bool

/-- `SessionMCPClient.initialize`: return `True` at once when already
initialized; otherwise send the `initialize` request, fail on no response,
on a response carrying `"error"`, or on one missing `"result"`; then record
the server info, set the state to `INITIALIZED`, send the
`notifications/initialized` message (which needs an open socket and a
willing transport) and only on that send's success set `initialized` and
state `ACTIVE`. -/
def initSession (c : Client) (net : Net) : Bool × Client :=
  if c.inited then (true, c)
  else
    let initParams := Json.obj
      [("protocolVersion", Json.str "2024-11-05"),
       ("capabilities", Json.obj
         [("roots", Json.obj [("listChanged", Json.bool true)]),
          ("sampling", Json.obj [])]),
       ("clientInfo", Json.obj
         [("name", Json.str "SessionTestClient"),
          ("version", Json.str "1.0.0")])]
    let (resp?, c1, _) := sendRequest c "initialize" (some initParams)
      net.frames net.sendOk
    match resp? with
    | none => (false, c1)
    | some resp =>
      if (resp.getKey "error").isSome then (false, c1)
      else if (resp.getKey "result").isSome = false then (false, c1)
      else
        let c2 : Client := { c1 with
          serverInfo := (resp.getKey "result").getD Json.null,
          sessionState := SessionState.INITIALIZED }
        if c2.connected && net.noticeOk then
          (true, { c2 with inited := true,
                           sessionState := SessionState.ACTIVE })
        else (false, c2)

/-- `SessionMCPClient.call_tool`: `None` when not initialized; otherwise a
`tools/call` request via `send_request`; when the response carries a
`"result"` that value is returned, any other non-`None` response (for
example a JSON-RPC error response) is returned whole and unchanged. -/
def callTool (c : Client) (name : String) (args : Option Json)
    (frames : List (Option Json)) (sendOk : Bool) :
    Option Json × Client × List (Option Json) :=
  if c.inited = false then (none, c, frames)
  else
    let params := Json.obj (("name", Json.str name) ::
      (match args with
       | some a => [("arguments", a)]
       | none => []))
    let (resp?, c', frames') :=
      sendRequest c "tools/call" (some params) frames sendOk
    match resp? with
    | none => (none, c', frames')
    | some resp =>
      match resp.getKey "result" with
      | some r => (some r, c', frames')
      | none => (some resp, c', frames')

/-- `SessionMCPClient.disconnect`: when a socket exists, close it (any
close error is swallowed) and, in the `finally` block, clear the socket
and the `initialized` flag; when no socket exists, do nothing.
`session_state` is not touched. -/
def disconnect (c : Client) : Client :=
  if c.connected then { c with connected := false, inited := false }
  else c

/-! ## Length-prefixed framing (`SessionMCPClient._receive_framed_message`)

The socket is a list of byte chunks: `recv k` yields up to `k` bytes from
the first chunk (a short read when the chunk is smaller than the request),
an empty chunk is a closed connection, and an exhausted list is a receive
timeout.  Bytes are `Nat`s below 256. -/

/-- The `while len(data) < n: data += recv(n - len(data))` loop shared by
the header read and the payload read of `_receive_framed_message`: collect
exactly `need` bytes, consuming chunks (only partially for the last one),
`none` on a closed connection or on stream exhaustion before `need` bytes
arrived. -/
def recvLoop : Nat → List (List Nat) → Option (List Nat × List (List Nat))
  | 0, s => some ([], s)
  | _ + 1, [] => none
  | need + 1, c :: rest =>
    if c.isEmpty then none
    else if c.length ≤ need + 1 then
      (recvLoop (need + 1 - c.length) rest).map (fun p => (c ++ p.1, p.2))
    else some (c.take (need + 1), c.drop (need + 1) :: rest)

/-- Python's `int.from_bytes(bs, byteorder='big')`. -/
def beBytesToNat (bs : List Nat) : Nat :=
  bs.foldl (fun acc b => acc * 256 + b) 0

/-- `SessionMCPClient._receive_framed_message`: read exactly 4 header
bytes, decode them big-endian, fail closed when the declared length
exceeds the 1 MiB cap (`1024 * 1024`) before touching the payload, then
read exactly that many payload bytes.  The trailing UTF-8 decode of the
payload is left at the byte level (a decode failure is one more `None`
path swallowed by the same `except`). -/
def receiveFramedMessage (s : List (List Nat)) : Option (List Nat) :=
  match recvLoop 4 s with
  | none => none
  | some (lengthData, s1) =>
    let messageLength := beBytesToNat lengthData
    if messageLength > 1024 * 1024 then none
    else
      match recvLoop messageLength s1 with
      | none => none
      | some (messageData, _) => some messageData

/-- Reference behaviour written from the spec's words for the framing
claim: over the flattened byte stream, take exactly 4 header bytes, then
exactly the declared number of payload bytes, failing when the cap is
exceeded or the stream ends early.  Compared against
`receiveFramedMessage` to show chunk boundaries are invisible. -/
def receiveFramedMessageFlat (flat : List Nat) : Option (List Nat) :=
  if flat.length < 4 then none
  else
    let messageLength := beBytesToNat (flat.take 4)
    if messageLength > 1024 * 1024 then none
    else if (flat.drop 4).length < messageLength then none
    else some ((flat.drop 4).take messageLength)

/-! ## Newline framing (`MCPClient.send_request` receive loop) -/

/-- The receive loop of `MCPClient.send_request` in `test_mcp_client.py`:
starting from the accumulated buffer `acc` (fresh and empty on every
call), append each received chunk, and as soon as the buffer holds a
newline return `response_data.split('\n')[0]` — everything before the
first newline — leaving later chunks on the wire but dropping the rest of
the buffer.  An empty chunk (closed connection) or stream exhaustion
(timeout) ends the loop with no line.  Returns the line found and the
chunks not yet consumed. -/
def recvResponseLine : List (List Char) → List Char →
    Option (List Char) × List (List Char)
  | [], _ => (none, [])
  | c :: rest, acc =>
    if c.isEmpty then (none, rest)
    else
      let acc' := acc ++ c
      if acc'.contains '\n' then
        (some (acc'.takeWhile (fun ch => ch ≠ '\n')), rest)
      else recvResponseLine rest acc'

/-! ## Integrated test runner logging (`integrated_test_runner.py`) -/

/-- A `LogEntry` as in `integrated_test_runner.py`; `timestamp` holds the
`datetime`'s `isoformat()` rendering, the only projection the file writer
uses. -/
structure LogEntry where
  timestamp : String
  source : String
  level : String
  message : String
  rawData : Option String

/-- Python's format spec `{s:>w}`: right-align in a field of width `w`,
padding with spaces on the left, leaving longer strings unchanged. -/
def padLeft (w : Nat) (s : String) : String :=
  String.mk (List.replicate (w - s.length) ' ') ++ s

/-- The line `IntegratedTestRunner._write_log_entry` writes for one entry:
`f"{entry.timestamp.isoformat()} [{entry.source:>7}] {entry.level:>5}: {entry.message}\n"`. -/
def logEntryLine (e : LogEntry) : String :=
  e.timestamp ++ " [" ++ padLeft 7 e.source ++ "] " ++ padLeft 5 e.level ++
    ": " ++ e.message ++ "\n"

/-- An open output file: `content` is the list of strings written to it in
order (the file's bytes are their concatenation) and `flushed` the part of
it already forced to disk by `flush()`. -/
structure LogFile where
  content : List String
  flushed : List String

/-- `file.write(s)`. -/
def fileWrite (f : LogFile) (s : String) : LogFile :=
  { f with content := f.content ++ [s] }

/-- `file.flush()`. -/
def fileFlush (f : LogFile) : LogFile :=
  { f with flushed := f.content }

/-- `IntegratedTestRunner._write_log_entry`: write the formatted line,
then flush. -/
def writeLogEntry (f : LogFile) (e : LogEntry) : LogFile :=
  fileFlush (fileWrite f (logEntryLine e))

/-- The header string `IntegratedTestRunner._write_log_header` writes: the
triple-quoted f-string naming the generation time, the target IP, the
serial port and the baud rate, closed by a line of 80 `=` characters. -/
def headerText (espIp serialPort : String) (baudRate : Nat) (now : String) :
    String :=
  "\n# ESP8266 MCP Integrated Test Log\n# Generated: " ++ now ++
    "\n# ESP8266 IP: " ++ espIp ++ "\n# Serial Port: " ++ serialPort ++
    "\n# Baud Rate: " ++ toString baudRate ++ "\n" ++
    String.mk (List.replicate 80 '=') ++ "\n"

/-- `IntegratedTestRunner._write_log_header`: write the header block, then
flush. -/
def writeLogHeader (espIp serialPort : String) (baudRate : Nat)
    (now : String) (f : LogFile) : LogFile :=
  fileFlush (fileWrite f (headerText espIp serialPort baudRate now))

/-- `open(log_file_path, 'w')`: a fresh, truncated file. -/
def openLogFile : LogFile :=
  { content := [], flushed := [] }

/-- The state shared between `IntegratedTestRunner.stop_logging` and the
consumer `_process_log_queue`: the `running` flag, the FIFO `log_queue`,
the entries already rendered to the terminal by `_display_log_entry`, the
optional output file, and whether that file has been closed. -/
structure RunnerState where
  running : Bool
  logQueue : List LogEntry
  displayed : List LogEntry
  logFile : Option LogFile
  fileClosed : Bool

/-- One iteration of the `while self.running` body of
`IntegratedTestRunner._process_log_queue`: when the flag is down the loop
has exited and nothing happens; when the queue is empty the `get` times
out and the loop just continues; otherwise the popped entry is displayed
and, if an output file is configured, written to it. -/
def processLogStep (s : RunnerState) : RunnerState :=
  if s.running then
    match s.logQueue with
    | [] => s
    | e :: rest =>
      { s with logQueue := rest,
               displayed := s.displayed ++ [e],
               logFile := s.logFile.map (fun f => writeLogEntry f e) }
  else s

/-- `n` further iterations of the consumer loop. -/
def runConsumer : Nat → RunnerState → RunnerState
  | 0, s => s
  | n + 1, s => runConsumer n (processLogStep s)

/-- `IntegratedTestRunner.stop_logging`: clear the `running` flag, stop
the serial monitor, and close the output file if one is open — without
joining the consumer thread and without draining `log_queue`. -/
def stopLogging (s : RunnerState) : RunnerState :=
  { s with running := false,
           fileClosed := if s.logFile.isSome then true else s.fileClosed }

/-- The file produced by `start_logging(path)`'s header write followed by
the consumer writing `entries` one at a time. -/
def loggedFile (espIp serialPort : String) (baudRate : Nat) (now : String)
    (entries : List LogEntry) : LogFile :=
  entries.foldl writeLogEntry
    (writeLogHeader espIp serialPort baudRate now openLogFile)

/-! ## Concrete sample values used by witnesses and counterexamples -/

/-- A freshly constructed `SessionMCPClient` after a successful `connect`:
socket open, no request sent yet, state `UNINITIALIZED`. -/
def sampleClient : Client :=
  { connected := true, requestId := 0, inited := false,
    serverInfo := Json.null, sessionState := SessionState.UNINITIALIZED }

/-- A server-to-client message with a `method` but no `id`. -/
def sampleNotice : Json :=
  Json.obj [("jsonrpc", Json.str "2.0"),
            ("method", Json.str "notifications/progress")]

/-- A well-formed response to request id 1. -/
def sampleResponse : Json :=
  Json.obj [("jsonrpc", Json.str "2.0"), ("id", Json.num 1),
            ("result", Json.obj [("serverInfo", Json.str "esp8266")])]

/-- A transport that accepts the outgoing request but never delivers a
frame (receive timeout), with the notice send succeeding. -/
def netEmpty : Net :=
  { sendOk := true, frames := [], noticeOk := true }

/-- A transport delivering a good `initialize` response but failing the
send of the `notifications/initialized` message. -/
def netNoNotice : Net :=
  { sendOk := true, frames := [some sampleResponse], noticeOk := false }

/-- An initialized client about to issue its first `tools/call`. -/
def toolClient : Client :=
  { connected := true, requestId := 0, inited := true,
    serverInfo := Json.null, sessionState := SessionState.ACTIVE }

/-- The JSON-RPC error response the device sends for
`tools/call` with `name: "nonexistent_tool"`. -/
def toolErrorResponse : Json :=
  Json.obj [("jsonrpc", Json.str "2.0"), ("id", Json.num 1),
            ("error", Json.obj [("code", Json.num (-32601)),
                                ("message", Json.str "Method not found")])]

/-- A client that completed the whole handshake: state `ACTIVE`. -/
def activeClient : Client :=
  { connected := true, requestId := 5, inited := true,
    serverInfo := Json.null, sessionState := SessionState.ACTIVE }

/-! ## Helper lemmas -/

/-- When `send_request`'s validation accepts a frame, it returns that very
frame, the frame's `jsonrpc` tag is `"2.0"`, and any `id` it carries
equals the request id. -/
theorem validateResponse_accepts (rid : Int) (r resp : Json)
    (h : validateResponse rid r = some resp) :
    resp = r ∧ r.getKey "jsonrpc" = some (Json.str "2.0") ∧
      ∀ v, r.getKey "id" = some v → pyEqInt v rid = true := by
  unfold validateResponse at h
  split at h
  case h_2 => exact absurd h (by simp)
  case h_1 s hj =>
    split at h
    case isFalse => exact absurd h (by simp)
    case isTrue hs =>
      subst hs
      split at h
      case h_1 v hv =>
        split at h
        case isFalse => exact absurd h (by simp)
        case isTrue hpe =>
          refine ⟨by simpa using h.symm, hj, ?_⟩
          intro w hw
          rw [hv] at hw
          cases hw
          exact hpe
      case h_2 hv =>
        refine ⟨by simpa using h.symm, hj, ?_⟩
        intro w hw
        rw [hv] at hw
        cases hw

/-- When the stream of nonempty chunks holds fewer bytes than requested,
the read loop hits the end of the stream and reports failure. -/
theorem recvLoop_exhausted (s : List (List Nat)) : ∀ (need : Nat),
    (∀ c ∈ s, c ≠ []) → s.flatten.length < need → recvLoop need s = none := by
  induction s with
  | nil =>
    intro need _ h
    match need with
    | n + 1 => rfl
  | cons c rest ih =>
    intro need hne h
    match need with
    | n + 1 =>
      have hc : c ≠ [] := hne c (by simp)
      have hlen : 1 ≤ c.length := List.length_pos.mpr hc
      rw [recvLoop]
      rw [if_neg (by simpa [List.isEmpty_iff] using hc)]
      have hjoin : (c :: rest).flatten.length = c.length + rest.flatten.length := by
        simp
      split
      case isTrue hle =>
        have : recvLoop (n + 1 - c.length) rest = none := by
          refine ih _ (fun d hd => hne d (by simp [hd])) ?_
          omega
        simp [this]
      case isFalse hgt =>
        omega

/-- Reading exactly `need` bytes: on a stream of nonempty chunks holding at
least `need` bytes, `recvLoop` returns the first `need` bytes of the
flattened stream and leaves a stream of nonempty chunks holding exactly
the rest. -/
theorem recvLoop_reads_exactly (s : List (List Nat)) : ∀ (need : Nat),
    (∀ c ∈ s, c ≠ []) → need ≤ s.flatten.length →
    ∃ s', recvLoop need s = some (s.flatten.take need, s') ∧
      s'.flatten = s.flatten.drop need ∧ ∀ c ∈ s', c ≠ [] := by
  induction s with
  | nil =>
    intro need _ h
    match need, h with
    | 0, _ => exact ⟨[], rfl, rfl, by simp⟩
  | cons c rest ih =>
    intro need hne h
    match need with
    | 0 => exact ⟨c :: rest, rfl, rfl, hne⟩
    | n + 1 =>
      have hc : c ≠ [] := hne c (by simp)
      have hlen : 1 ≤ c.length := List.length_pos.mpr hc
      have hjoin : (c :: rest).flatten = c ++ rest.flatten := by simp
      rw [recvLoop]
      rw [if_neg (by simpa [List.isEmpty_iff] using hc)]
      split
      case isTrue hle =>
        obtain ⟨s', heq, hj, hne'⟩ :=
          ih (n + 1 - c.length) (fun d hd => hne d (by simp [hd]))
            (by rw [hjoin, List.length_append] at h; omega)
        refine ⟨s', ?_, ?_, hne'⟩
        · rw [heq]
          simp only [Option.map_some']
          congr 2
          rw [hjoin, List.take_append_eq_append_take,
            List.take_of_length_le hle]
        · rw [hj, hjoin, List.drop_append_eq_append_drop,
            List.drop_eq_nil_of_le hle, List.nil_append]
      case isFalse hgt =>
        refine ⟨c.drop (n + 1) :: rest, ?_, ?_, ?_⟩
        · congr 1
          rw [hjoin, List.take_append_eq_append_take]
          have : n + 1 - c.length = 0 := by omega
          rw [this]
          simp
        · rw [hjoin, List.drop_append_eq_append_drop]
          have : n + 1 - c.length = 0 := by omega
          rw [this]
          simp
        · intro d hd
          rw [List.mem_cons] at hd
          rcases hd with hd | hd
          · subst hd
            have : (c.drop (n + 1)).length = c.length - (n + 1) := by simp
            intro hnil
            rw [hnil] at this
            simp at this
            omega
          · exact hne d (by simp [hd])

/-- Exhaustive description of where `initialize` can leave the session
state: either it bailed out before the `INITIALIZED` assignment (state
untouched), or it reached `INITIALIZED` and the notice send failed
(returning `False`), or it went all the way to `ACTIVE` — which requires a
decodable first frame carrying a `result` and no `error`, an open socket
and a successful notice send. -/
theorem initSession_state_cases (c : Client) (net : Net) :
    (initSession c net).2.sessionState = c.sessionState ∨
    ((initSession c net).2.sessionState = SessionState.INITIALIZED ∧
      (initSession c net).1 = false) ∨
    ((initSession c net).2.sessionState = SessionState.ACTIVE ∧
      (initSession c net).1 = true ∧ c.inited = false ∧
      c.connected = true ∧ net.noticeOk = true ∧
      ∃ resp rest, net.frames = some resp :: rest ∧
        resp.getKey "error" = none ∧ (resp.getKey "result").isSome = true) := by
  by_cases hi : c.inited
  · left
    simp [initSession, hi]
  · by_cases hc : c.connected
    · by_cases hs : net.sendOk
      · match hf : net.frames with
        | [] =>
          left
          simp [initSession, sendRequest, hi, hc, hs, hf]
        | none :: rest =>
          left
          simp [initSession, sendRequest, hi, hc, hs, hf]
        | some r :: rest =>
          match hval : validateResponse (c.requestId + 1) r with
          | none =>
            left
            simp [initSession, sendRequest, hi, hc, hs, hf, hval]
          | some v =>
            obtain ⟨hv, -, -⟩ := validateResponse_accepts _ _ _ hval
            rw [hv] at hval
            by_cases herr : (r.getKey "error").isSome
            · left
              simp [initSession, sendRequest, hi, hc, hs, hf, hval, herr]
            · by_cases hres : (r.getKey "result").isSome
              · by_cases hn : net.noticeOk
                · right; right
                  refine ⟨?_, ?_, by simp at hi; exact hi, hc, hn, r, rest, rfl,
                    ?_, hres⟩
                  · simp [initSession, sendRequest, hi, hc, hs, hf, hval,
                      herr, hres, hn]
                  · simp [initSession, sendRequest, hi, hc, hs, hf, hval,
                      herr, hres, hn]
                  · simpa [Option.not_isSome_iff_eq_none] using herr
                · right; left
                  constructor
                  · simp [initSession, sendRequest, hi, hc, hs, hf, hval,
                      herr, hres, hn]
                  · simp [initSession, sendRequest, hi, hc, hs, hf, hval,
                      herr, hres, hn]
              · left
                simp [initSession, sendRequest, hi, hc, hs, hf, hval, herr,
                  hres]
      · left
        simp [initSession, sendRequest, hi, hc, hs]
    · left
      simp [initSession, sendRequest, hi, hc]

/-- Dropping the first line: `split('\n')[0]` on a buffer made of a
newline-free part followed by `'\n'` is exactly that part. -/
theorem takeWhile_before_newline (l1 l2 : List Char) (h : '\n' ∉ l1) :
    (l1 ++ '\n' :: l2).takeWhile (fun ch => ch ≠ '\n') = l1 := by
  induction l1 with
  | nil => simp [List.takeWhile]
  | cons a l ih =>
    have ha : a ≠ '\n' := fun hx => h (by simp [hx])
    have hl : '\n' ∉ l := fun hx => h (by simp [hx])
    simp only [List.cons_append, List.takeWhile_cons]
    rw [if_pos (by simpa using ha)]
    rw [ih hl]

/-- Every write through `_write_log_entry` appends exactly the formatted
line for its entry, in order. -/
theorem foldl_writeLogEntry_content (entries : List LogEntry) :
    ∀ f : LogFile, (entries.foldl writeLogEntry f).content =
      f.content ++ entries.map logEntryLine := by
  induction entries with
  | nil => intro f; simp
  | cons e es ih =>
    intro f
    rw [List.foldl_cons, ih]
    simp [writeLogEntry, fileWrite, fileFlush]

/-- A file whose flushed part is current stays current across any number
of `_write_log_entry` calls, because each one flushes. -/
theorem foldl_writeLogEntry_flushed (entries : List LogEntry) :
    ∀ f : LogFile, f.flushed = f.content →
      (entries.foldl writeLogEntry f).flushed =
        (entries.foldl writeLogEntry f).content := by
  induction entries with
  | nil => intro f h; exact h
  | cons e es ih =>
    intro f _
    rw [List.foldl_cons]
    exact ih _ rfl

/-- Right alignment: `padLeft w s` is a run of spaces followed by `s`,
padded to width `w` (longer strings pass through unchanged). -/
theorem padLeft_shape (w : Nat) (s : String) :
    padLeft w s = String.mk (List.replicate (w - s.length) ' ') ++ s ∧
    (padLeft w s).length = max w s.length ∧
    (List.replicate (w - s.length) ' ').all (fun ch => ch == ' ') = true := by
  refine ⟨rfl, ?_, ?_⟩
  · rw [padLeft, String.length_append, String.length_mk,
      List.length_replicate]
    omega
  · simp

/-! ## Claims -/

/-- C1 (counterexample): with request id 1 outstanding and the wire
delivering first a frame with no `id` (a server notice) and then the
response whose `id` is 1, `send_request` returns the id-less notice — it
does not skip it and keep reading for the id-matching response, contrary
to the claim. -/
theorem sendRequest_notice_first_cex :
    (sendRequest sampleClient "ping" none
        [some sampleNotice, some sampleResponse] true).1 =
      some sampleNotice ∧
    sampleNotice.getKey "id" = none ∧
    sampleResponse.getKey "id" = some (Json.num 1) ∧
    sampleClient.requestId + 1 = 1 :=
  ⟨rfl, rfl, rfl, rfl⟩

/-- C1 (amended): `send_request` reads exactly one frame per call and
never skips frames: whatever it returns is the first frame on the wire,
that frame's `jsonrpc` tag is `"2.0"`, and the id filter applies only when
the frame carries an `id` — a notice-shaped frame with no `id` is returned
as though it were the response, while a frame with a mismatched id makes
the call return `None` instead of reading further. -/
theorem sendRequest_single_frame (c : Client) (method : String)
    (params : Option Json) (frames : List (Option Json)) (sendOk : Bool)
    (resp : Json)
    (h : (sendRequest c method params frames sendOk).1 = some resp) :
    frames.head? = some (some resp) ∧
    resp.getKey "jsonrpc" = some (Json.str "2.0") ∧
    ∀ v, resp.getKey "id" = some v → pyEqInt v (c.requestId + 1) = true := by
  rcases frames with _ | ⟨f, rest⟩
  · by_cases hcs : c.connected && sendOk <;>
      simp [sendRequest, hcs] at h
  · rcases f with _ | r
    · by_cases hcs : c.connected && sendOk <;>
        simp [sendRequest, hcs] at h
    · by_cases hcs : c.connected && sendOk
      · simp only [sendRequest, hcs] at h
        rw [if_pos (show True from trivial)] at h
        obtain ⟨hv, hj, hid⟩ := validateResponse_accepts _ _ _ h
        subst hv
        exact ⟨rfl, hj, hid⟩
      · simp [sendRequest, hcs] at h

/-- C1 (witness): concrete application of `sendRequest_single_frame` to a
one-frame wire. -/
theorem sendRequest_single_frame_witness :
    ([some sampleResponse] : List (Option Json)).head? =
      some (some sampleResponse) :=
  (sendRequest_single_frame sampleClient "ping" none [some sampleResponse]
    true sampleResponse rfl).1

/-- C2: over any chunking of the byte stream into nonempty `recv` results
— including one byte at a time — `_receive_framed_message` behaves as the
reference function on the flattened bytes: exactly 4 header bytes are
consumed, then exactly the declared number of payload bytes (sizes 0 and 1
included), and a value is produced only for a complete frame. -/
theorem receiveFramed_reads_header_then_payload (s : List (List Nat))
    (h : ∀ c ∈ s, c ≠ []) :
    receiveFramedMessage s = receiveFramedMessageFlat s.flatten := by
  unfold receiveFramedMessage receiveFramedMessageFlat
  by_cases h4 : 4 ≤ s.flatten.length
  · obtain ⟨s', heq, hj, hne'⟩ := recvLoop_reads_exactly s 4 h h4
    simp only [heq]
    rw [if_neg (show ¬s.flatten.length < 4 by omega)]
    by_cases hcap : beBytesToNat (s.flatten.take 4) > 1024 * 1024
    · rw [if_pos hcap, if_pos hcap]
    · rw [if_neg hcap, if_neg hcap]
      by_cases hlen : (s.flatten.drop 4).length <
          beBytesToNat (s.flatten.take 4)
      · rw [if_pos hlen]
        have hlen' : s'.flatten.length <
            beBytesToNat (s.flatten.take 4) := by
          rw [hj]
          exact hlen
        have hnone := recvLoop_exhausted s'
          (beBytesToNat (s.flatten.take 4)) hne' hlen'
        rw [hnone]
      · rw [if_neg hlen]
        have hge : beBytesToNat (s.flatten.take 4) ≤ s'.flatten.length := by
          rw [hj]
          omega
        obtain ⟨s'', heq2, hj2, hne2⟩ := recvLoop_reads_exactly s'
          (beBytesToNat (s.flatten.take 4)) hne' hge
        rw [heq2, hj]
  · rw [recvLoop_exhausted s 4 h (by omega)]
    rw [if_pos (by omega)]

/-- C2 (witness): a frame of declared length 2 delivered one byte at a
time. -/
theorem receiveFramed_reads_exactly_witness :
    receiveFramedMessage [[0], [0], [0], [2], [65], [66], [67]] =
      receiveFramedMessageFlat
        ([[0], [0], [0], [2], [65], [66], [67]] :
          List (List Nat)).flatten :=
  receiveFramed_reads_header_then_payload _ (by decide)

/-- C3: whenever the 4 header bytes decode to a length above the 1 MiB
cap, `_receive_framed_message` fails closed — the result is `None` for
every possible rest-of-stream `s1`, in particular when no payload bytes
exist at all, so nothing of the declared size is read or buffered. -/
theorem receiveFramed_oversize_fails_closed (s : List (List Nat))
    (hdr : List Nat) (s1 : List (List Nat))
    (h : recvLoop 4 s = some (hdr, s1))
    (hbig : beBytesToNat hdr > 1024 * 1024) :
    receiveFramedMessage s = none := by
  unfold receiveFramedMessage
  simp only [h]
  rw [if_pos hbig]

/-- C3 (witness): header declaring 1 MiB + 1 with no payload behind it. -/
theorem receiveFramed_oversize_witness :
    receiveFramedMessage [[0, 16, 0, 1]] = none :=
  receiveFramed_oversize_fails_closed [[0, 16, 0, 1]] [0, 16, 0, 1] [] rfl
    (by decide)

/-- C4: starting from any non-`ACTIVE` state, `initialize` ends in
`ACTIVE` only when the socket was open, the `initialized`-notice send
succeeded, and the first wire frame was a decodable response with a
`result` and no `error`; and whenever the notice send fails the state
does not report `ACTIVE`. -/
theorem initSession_active_only_after_notice (c : Client) (net : Net)
    (h : c.sessionState ≠ SessionState.ACTIVE) :
    ((initSession c net).2.sessionState = SessionState.ACTIVE →
      c.connected = true ∧ net.noticeOk = true ∧
      ∃ resp rest, net.frames = some resp :: rest ∧
        resp.getKey "error" = none ∧
        (resp.getKey "result").isSome = true) ∧
    (net.noticeOk = false →
      (initSession c net).2.sessionState ≠ SessionState.ACTIVE) := by
  rcases initSession_state_cases c net with hcase | ⟨hcase, _⟩ |
    ⟨hcase, _, _, hconn, hnot, hex⟩
  · constructor
    · intro ha
      rw [hcase] at ha
      exact absurd ha h
    · intro _
      rw [hcase]
      exact h
  · constructor
    · intro ha
      rw [hcase] at ha
      cases ha
    · intro _
      rw [hcase]
      decide
  · constructor
    · intro _
      exact ⟨hconn, hnot, hex⟩
    · intro hfalse
      rw [hnot] at hfalse
      cases hfalse

/-- C4 (witness): a good `initialize` response followed by a failing
notice send leaves the state short of `ACTIVE`. -/
theorem initSession_active_only_witness :
    (initSession sampleClient netNoNotice).2.sessionState ≠
      SessionState.ACTIVE :=
  (initSession_active_only_after_notice sampleClient netNoNotice
    (by decide)).2 rfl

/-- C5 (counterexample): a mid-sequence failure — the `initialize` request
gets no response — makes `initialize` return `False`, but the session
state is left at `UNINITIALIZED`, not at the `ERROR_STATE` the claim
requires. -/
theorem initSession_failure_not_error_state_cex :
    (initSession sampleClient netEmpty).1 = false ∧
    (initSession sampleClient netEmpty).2.sessionState =
      SessionState.UNINITIALIZED ∧
    SessionState.UNINITIALIZED ≠ SessionState.ERROR_STATE :=
  ⟨rfl, rfl, by decide⟩

/-- C5 (amended): when any step of `initialize` fails the call returns the
failure indicator `False` without raising, and the session state is left
either unchanged or — when the failure came after a good response — at
`INITIALIZED`; `ERROR_STATE` is never entered by `initialize`. -/
theorem initSession_failure_leaves_state (c : Client) (net : Net)
    (h : (initSession c net).1 = false) :
    ((initSession c net).2.sessionState = c.sessionState ∨
      (initSession c net).2.sessionState = SessionState.INITIALIZED) ∧
    (c.sessionState ≠ SessionState.ERROR_STATE →
      (initSession c net).2.sessionState ≠ SessionState.ERROR_STATE) := by
  rcases initSession_state_cases c net with hcase | ⟨hcase, _⟩ |
    ⟨_, htrue, _⟩
  · refine ⟨Or.inl hcase, fun hne => ?_⟩
    rw [hcase]
    exact hne
  · refine ⟨Or.inr hcase, fun _ => ?_⟩
    rw [hcase]
    decide
  · rw [htrue] at h
    cases h

/-- C5 (witness): the no-response failure applied concretely. -/
theorem initSession_failure_witness :
    (initSession sampleClient netEmpty).2.sessionState =
        sampleClient.sessionState ∨
      (initSession sampleClient netEmpty).2.sessionState =
        SessionState.INITIALIZED :=
  (initSession_failure_leaves_state sampleClient netEmpty rfl).1

/-- C6: a well-formed JSON-RPC error response to `tools/call` (matching
id, `jsonrpc` 2.0, no `result`) is returned by `call_tool` whole and
unchanged — a non-`None` value, so it is not classified with the
transport-fault results, and the `error` object inside reaches the caller
verbatim, with its code and message untouched. -/
theorem callTool_surfaces_error_object (c : Client) (name : String)
    (args : Option Json) (rest : List (Option Json)) (resp : Json)
    (hin : c.inited = true) (hconn : c.connected = true)
    (hj : resp.getKey "jsonrpc" = some (Json.str "2.0"))
    (hid : resp.getKey "id" = some (Json.num (c.requestId + 1)))
    (hres : resp.getKey "result" = none) :
    (callTool c name args (some resp :: rest) true).1 = some resp ∧
    ∀ e, resp.getKey "error" = some e →
      ∃ m, (callTool c name args (some resp :: rest) true).1 = some m ∧
        m.getKey "error" = some e := by
  have h1 : (callTool c name args (some resp :: rest) true).1 =
      some resp := by
    simp [callTool, sendRequest, validateResponse, pyEqInt, hin, hconn,
      hj, hid, hres]
  exact ⟨h1, fun e he => ⟨resp, h1, he⟩⟩

/-- C6 (witness): the `-32601` error for `nonexistent_tool` is surfaced
whole. -/
theorem callTool_surfaces_error_witness :
    (callTool toolClient "nonexistent_tool" none [some toolErrorResponse]
        true).1 = some toolErrorResponse :=
  (callTool_surfaces_error_object toolClient "nonexistent_tool" none []
    toolErrorResponse rfl rfl rfl rfl rfl).1

/-- C7 (counterexample): disconnecting an `ACTIVE` client leaves
`session_state` at `ACTIVE` — `disconnect` never resets it to the
`UNINITIALIZED` the claim requires. -/
theorem disconnect_state_not_reset_cex :
    (disconnect activeClient).sessionState = SessionState.ACTIVE ∧
    SessionState.ACTIVE ≠ SessionState.UNINITIALIZED :=
  ⟨rfl, by decide⟩

/-- C7 (amended): `disconnect` is idempotent and total (a second call
changes nothing and nothing raises), it always leaves the socket cleared,
but it leaves `session_state` exactly as it was — the state is not reset
to `UNINITIALIZED`. -/
theorem disconnect_idempotent_keeps_state (c : Client) :
    disconnect (disconnect c) = disconnect c ∧
    (disconnect c).connected = false ∧
    (disconnect c).sessionState = c.sessionState := by
  by_cases hc : c.connected
  · refine ⟨?_, ?_, ?_⟩ <;> simp [disconnect, hc]
  · refine ⟨?_, ?_, ?_⟩ <;> simp [disconnect, hc]

/-- C8: the log file built by the header write plus any sequence of entry
writes holds the header block first and then exactly one formatted line
per entry in order; after every write the flushed part equals the whole
content; the header names the target IP, the serial port, the baud rate
and the generation timestamp; and the source/level tags are right-aligned
space-padded fields. -/
theorem logFile_header_lines_flush (espIp serialPort : String)
    (baudRate : Nat) (now : String) (entries : List LogEntry) :
    (loggedFile espIp serialPort baudRate now entries).content =
      headerText espIp serialPort baudRate now ::
        entries.map logEntryLine ∧
    (loggedFile espIp serialPort baudRate now entries).flushed =
      (loggedFile espIp serialPort baudRate now entries).content ∧
    (∃ a b, headerText espIp serialPort baudRate now =
      a ++ espIp ++ b) ∧
    (∃ a b, headerText espIp serialPort baudRate now =
      a ++ serialPort ++ b) ∧
    (∃ a b, headerText espIp serialPort baudRate now =
      a ++ toString baudRate ++ b) ∧
    (∃ a b, headerText espIp serialPort baudRate now = a ++ now ++ b) ∧
    (∀ w t, (padLeft w t).length = max w t.length ∧
      padLeft w t = String.mk (List.replicate (w - t.length) ' ') ++ t) := by
  refine ⟨?_, ?_, ?_, ?_, ?_, ?_, ?_⟩
  · rw [loggedFile, foldl_writeLogEntry_content]
    simp [writeLogHeader, fileWrite, fileFlush, openLogFile]
  · rw [loggedFile]
    exact foldl_writeLogEntry_flushed _ _ rfl
  · exact ⟨"\n# ESP8266 MCP Integrated Test Log\n# Generated: " ++ now ++
      "\n# ESP8266 IP: ",
      "\n# Serial Port: " ++ serialPort ++ "\n# Baud Rate: " ++
        toString baudRate ++ "\n" ++
        String.mk (List.replicate 80 '=') ++ "\n",
      by simp [headerText, String.append_assoc]⟩
  · exact ⟨"\n# ESP8266 MCP Integrated Test Log\n# Generated: " ++ now ++
      "\n# ESP8266 IP: " ++ espIp ++ "\n# Serial Port: ",
      "\n# Baud Rate: " ++ toString baudRate ++ "\n" ++
        String.mk (List.replicate 80 '=') ++ "\n",
      by simp [headerText, String.append_assoc]⟩
  · exact ⟨"\n# ESP8266 MCP Integrated Test Log\n# Generated: " ++ now ++
      "\n# ESP8266 IP: " ++ espIp ++ "\n# Serial Port: " ++ serialPort ++
      "\n# Baud Rate: ",
      "\n" ++ String.mk (List.replicate 80 '=') ++ "\n",
      by simp [headerText, String.append_assoc]⟩
  · exact ⟨"\n# ESP8266 MCP Integrated Test Log\n# Generated: ",
      "\n# ESP8266 IP: " ++ espIp ++ "\n# Serial Port: " ++ serialPort ++
        "\n# Baud Rate: " ++ toString baudRate ++ "\n" ++
        String.mk (List.replicate 80 '=') ++ "\n",
      by simp [headerText, String.append_assoc]⟩
  · intro w t
    exact ⟨(padLeft_shape w t).2.1, (padLeft_shape w t).1⟩

/-- C9: when one received chunk completes the line — it consists of a
newline-free part, the newline, and trailing pipelined bytes — the
newline-framed receive loop of `MCPClient.send_request` returns only the
part before the newline, and the trailing bytes are discarded: the stream
handed to any later call is exactly the chunks not yet consumed, with no
trace of the tail. -/
theorem recvResponseLine_discards_tail (line1 extra : List Char)
    (rest : List (List Char)) (h : '\n' ∉ line1) :
    recvResponseLine ((line1 ++ '\n' :: extra) :: rest) [] =
      (some line1, rest) := by
  rw [recvResponseLine]
  rw [if_neg (by simp)]
  simp only [List.nil_append]
  rw [if_pos (by simp)]
  rw [takeWhile_before_newline _ _ h]

/-- C9 (witness): a chunk holding one full line plus the start of a second
response. -/
theorem recvResponseLine_discards_witness :
    recvResponseLine [['r', '1'] ++ '\n' :: ['r', '2']] [] =
      (some ['r', '1'], []) :=
  recvResponseLine_discards_tail ['r', '1'] ['r', '2'] [] (by decide)

/-- C10: once `stop_logging` clears the running flag, any number of
further consumer iterations changes nothing — entries still in the queue
stay there, nothing more is displayed, the output file receives no
further write — and the file is closed at the moment of `stop_logging`
itself, without waiting for the consumer. -/
theorem stopLogging_abandons_queue (s : RunnerState) (n : Nat) :
    runConsumer n (stopLogging s) = stopLogging s ∧
    (runConsumer n (stopLogging s)).displayed = s.displayed ∧
    (runConsumer n (stopLogging s)).logFile = s.logFile ∧
    (runConsumer n (stopLogging s)).logQueue = s.logQueue ∧
    (stopLogging s).fileClosed = (s.logFile.isSome || s.fileClosed) := by
  have hstep : processLogStep (stopLogging s) = stopLogging s := by
    simp [processLogStep, stopLogging]
  have hrun : ∀ m, runConsumer m (stopLogging s) = stopLogging s := by
    intro m
    induction m with
    | zero => rfl
    | succ k ih =>
      simp only [runConsumer, hstep]
      exact ih
  refine ⟨hrun n, ?_, ?_, ?_, ?_⟩
  · rw [hrun n]
    rfl
  · rw [hrun n]
    rfl
  · rw [hrun n]
    rfl
  · cases hf : s.logFile <;> simp [stopLogging, hf]

end ESPMCP
